import Mathlib

/-!
Verification of the zjobly transcription/draft-generation pipeline.

The definitions below are a shallow embedding of the Python sources:
- `Storage` embeds `services/video-ingest-service/backend/app/storage.py`
  (object-key sanitation and builders, and the text-object store modelled
  as a partial map from keys to texts);
- `Media` embeds the Celery tasks of
  `services/video-ingest-service/backend/app/celery_app.py`
  (`process_upload`, `process_audio_chunk`, `finalize_audio_session`);
- `Transcription` embeds `services/transcription/worker.py`;
- `Nlp` embeds `services/nlp/worker.py`;
- `Routes` embeds the draft endpoints of
  `services/video-ingest-service/backend/app/routes/nlp.py`.

External effects (object-store reads and writes, the ffmpeg transcode
command, the speech-to-text call, the language-model call and the JSON
parse of its reply) are modelled by explicit environment records: each
record field is the outcome the external world returns for the one call
the code makes at that point.
-/

namespace Py

/-!
Executable models of the Python `str` operations the sources use, written
by structural recursion over the character list of a `String` so that every
concrete run reduces inside the kernel.
-/

/-- Python `s.strip()`: drop whitespace from both ends. -/
def strip (s : String) : String :=
  String.mk (((s.data.dropWhile Char.isWhitespace).reverse.dropWhile Char.isWhitespace).reverse)

/-- Python `s.lower()` for ASCII text. -/
def lower (s : String) : String :=
  String.mk (s.data.map Char.toLower)

/-- Python `s[:n]`: the first `n` characters. -/
def take (n : Nat) (s : String) : String :=
  String.mk (s.data.take n)

/-- Splitting of a character list at every character satisfying `p`,
keeping empty pieces, as Python `s.split(sep)` does for a one-character
separator. -/
def splitListOnP (p : Char → Bool) : List Char → List (List Char)
  | [] => [[]]
  | c :: cs =>
    if p c then [] :: splitListOnP p cs
    else
      match splitListOnP p cs with
      | [] => [[c]]
      | w :: ws => (c :: w) :: ws

/-- Python `s.split(sep)` for a one-character separator. -/
def splitOnChar (sep : Char) (s : String) : List String :=
  (splitListOnP (fun c => c = sep) s.data).map String.mk

/-- Python `s.split()` with no argument: whitespace pieces dropped. -/
def splitWs (s : String) : List String :=
  ((splitListOnP Char.isWhitespace s.data).map String.mk).filter (fun w => w ≠ "")

end Py

namespace Storage

/-- Characters admitted by `SANITIZE_ALLOWED` in storage.py: ASCII letters,
digits, `-` and `_`. -/
def isAllowedTokenChar (c : Char) : Bool :=
  c.isAlphanum || c = '-' || c = '_'

/-- Embedding of `sanitize_token`: keep only the allowed characters. -/
def sanitize_token (s : String) : String :=
  String.mk (s.data.filter isAllowedTokenChar)

/-- Pythonic `a or b` on strings: the empty string is falsy. -/
def pyOrStr (a b : String) : String :=
  if a = "" then b else a

/-- Session segment used by every audio key builder:
`sanitize_token(session_id) or "session"`. -/
def safeSession (session_id : String) : String :=
  pyOrStr (sanitize_token session_id) "session"

/-- Part of a string after the last occurrence of the separator, the whole
string when the separator does not occur: Python `s.rsplit(sep, 1)[-1]`. -/
def afterLast (sep : Char) (s : String) : String :=
  (Py.splitOnChar sep s).getLastD s

/-- Zero-padding of an index to six digits: Python `f"{i:06d}"` for a
non-negative index. -/
def pad6 (i : Nat) : String :=
  let s := toString i
  String.mk (List.replicate (6 - s.length) '0') ++ s

/-- Extension extraction of `build_audio_chunk_object_key`: basename after
the last `/` and `\`, then the part after the last `.` when a dot occurs,
with empty results treated as absent. -/
def chunkExt (file_name : Option String) : Option String :=
  match file_name with
  | none => none
  | some fn =>
    if fn = "" then none
    else
      let base := afterLast '\\' (afterLast '/' fn)
      if base.data.contains '.' then
        let e := afterLast '.' base
        if e = "" then none else some e
      else none

/-- Embedding of `build_audio_chunk_object_key`. -/
def build_audio_chunk_object_key (session_id : String) (chunk_index : Nat)
    (file_name : Option String) : String :=
  let suffix := "chunk-" ++ pad6 chunk_index ++ "." ++ ((chunkExt file_name).getD "webm")
  "audio-sessions/" ++ safeSession session_id ++ "/chunks/" ++ suffix

/-- Embedding of `build_audio_transcript_object_key`. -/
def build_audio_transcript_object_key (session_id : String) (chunk_index : Nat) : String :=
  "audio-sessions/" ++ safeSession session_id ++ "/transcripts/chunk-" ++ pad6 chunk_index ++ ".txt"

/-- Embedding of `build_audio_final_transcript_key`. -/
def build_audio_final_transcript_key (session_id : String) : String :=
  "audio-sessions/" ++ safeSession session_id ++ "/transcripts/final.txt"

/-- Object store modelled as a partial map from keys to stored texts;
one fixed bucket is implicit. -/
def Store : Type := String → Option String

/-- Embedding of `put_text_object`: idempotent overwrite at a key. -/
def put_text_object (store : Store) (object_key : String) (text : String) : Store :=
  fun k => if k = object_key then some text else store k

/-- Embedding of `get_text_object`: `some` the stored text, `none` for the
`FileNotFoundError` raised on a missing key. -/
def get_text_object (store : Store) (object_key : String) : Option String :=
  store object_key

end Storage

namespace Media

open Storage

/-- Size ceiling constant `OPENAI_MAX_BYTES` of celery_app.py. -/
def OPENAI_MAX_BYTES : Nat := 25 * 1024 * 1024

/-- Failure conditions named after the spec's error taxonomy; each one is
raised by a specific statement of the embedded task bodies. -/
inductive TaskError
  | downloadFailure
  | transcodeFailure
  | payloadTooLarge
  | externalServiceFailure
  | emptyObject
  | transcriptTooShort
  | configurationError
  | emptyModelResponse
  | malformedModelOutput
  | incompleteDraft
  deriving DecidableEq, Repr

/-- Terminal fate of one delivery of a Celery task. `retryRequested` models
the body raising `self.retry(exc=...)`; `failedNoRetry` models an exception
propagating out of a body that has no retry handler. -/
inductive TaskOutcome (α : Type)
  | success (v : α)
  | retryRequested (e : TaskError)
  | failedNoRetry (e : TaskError)
  deriving DecidableEq, Repr

/-- Celery retry semantics for a deterministic environment: a delivery that
requests a retry is re-executed until the task's retry budget is spent, so
it is retried `maxRetries` times; any other outcome is never retried. -/
def retriesGranted {α : Type} : TaskOutcome α → Nat → Nat
  | TaskOutcome.retryRequested _, maxRetries => maxRetries
  | _, _ => 0

/-- Environment of one `process_upload` / `process_audio_chunk` delivery:
outcomes of the download, the ffmpeg transcode and the speech-to-text call,
and the byte sizes the two `os.path.getsize` calls observe. -/
structure UploadEnv where
  downloadOk : Bool
  inputSize : Nat
  transcodeOk : Bool
  transcodedSize : Nat
  whisperResult : Option String
  deriving Repr

/-- Trace of one run of the shared body of `process_upload` and
`process_audio_chunk` (download, size-gated transcode, size re-check,
speech-to-text). -/
structure UploadRun where
  result : Except TaskError String
  transcodeCalled : Bool
  sttCalled : Bool
  sttSize : Option Nat
  deriving Repr

/-- Straight-line embedding of the body shared by `process_upload` and
`process_audio_chunk`: download, transcode only when the input exceeds
`OPENAI_MAX_BYTES`, re-check the size of the file about to be sent, then
call the speech-to-text service. -/
def uploadBody (env : UploadEnv) : UploadRun :=
  if env.downloadOk = false then
    ⟨Except.error TaskError.downloadFailure, false, false, none⟩
  else if env.inputSize > OPENAI_MAX_BYTES then
    if env.transcodeOk = false then
      ⟨Except.error TaskError.transcodeFailure, true, false, none⟩
    else if env.transcodedSize > OPENAI_MAX_BYTES then
      ⟨Except.error TaskError.payloadTooLarge, true, false, none⟩
    else
      match env.whisperResult with
      | some t => ⟨Except.ok t, true, true, some env.transcodedSize⟩
      | none => ⟨Except.error TaskError.externalServiceFailure, true, true, some env.transcodedSize⟩
  else if env.inputSize > OPENAI_MAX_BYTES then
    ⟨Except.error TaskError.payloadTooLarge, false, false, none⟩
  else
    match env.whisperResult with
    | some t => ⟨Except.ok t, false, true, some env.inputSize⟩
    | none => ⟨Except.error TaskError.externalServiceFailure, false, true, some env.inputSize⟩

/-- Embedding of the task `media.process_upload`: the whole body is inside
`try: ... except Exception as exc: raise self.retry(exc=exc)`, so every
failure requests a retry; success enqueues the downstream draft job and
returns the transcript. -/
def process_upload (env : UploadEnv) : TaskOutcome String :=
  match (uploadBody env).result with
  | Except.ok t => TaskOutcome.success t
  | Except.error e => TaskOutcome.retryRequested e

/-- Embedding of the task `media.process_audio_chunk`: same guarded body;
on success the transcript is written at the chunk-transcript key, and every
failure requests a retry through the same blanket handler. -/
def process_audio_chunk (env : UploadEnv) (store : Store)
    (session_id : String) (chunk_index : Nat) : TaskOutcome Store :=
  match (uploadBody env).result with
  | Except.ok t =>
    TaskOutcome.success
      (put_text_object store (build_audio_transcript_object_key session_id chunk_index) t)
  | Except.error e => TaskOutcome.retryRequested e

/-- Outcome of one `finalize_audio_session` delivery: `retry` carries the
missing chunk indices handed to `self.retry`; `ok` carries the updated
store and the assembled final text. -/
inductive FinalizeOutcome
  | retry (missing : List Nat)
  | ok (newStore : Store) (finalText : String)

/-- Success test for a finalize outcome. -/
def FinalizeOutcome.isOk : FinalizeOutcome → Bool
  | FinalizeOutcome.retry _ => false
  | FinalizeOutcome.ok _ _ => true

/-- Store-free view of a finalize outcome: the missing indices on retry,
the assembled final text on success. -/
def FinalizeOutcome.decision : FinalizeOutcome → Except (List Nat) String
  | FinalizeOutcome.retry m => Except.error m
  | FinalizeOutcome.ok _ t => Except.ok t

/-- Embedding of the task `media.finalize_audio_session`: read the chunk
transcript of every index below `total_chunks` (stripping each found text),
retry with the list of missing indices when any read fails, otherwise join
the non-empty texts with newlines and write the result at the
final-transcript key. -/
def finalize_audio_session (store : Store) (session_id : String)
    (total_chunks : Nat) : FinalizeOutcome :=
  let scan := (List.range total_chunks).map
    (fun idx => (idx, get_text_object store (build_audio_transcript_object_key session_id idx)))
  let missing := (scan.filter (fun p => p.2.isNone)).map Prod.fst
  let transcripts := scan.filterMap (fun p => p.2.map Py.strip)
  if missing = [] then
    let finalText := String.intercalate "\n" (transcripts.filter (fun t => t ≠ ""))
    FinalizeOutcome.ok
      (put_text_object store (build_audio_final_transcript_key session_id) finalText)
      finalText
  else
    FinalizeOutcome.retry missing

end Media

namespace Transcription

open Media

/-- Default of the size ceiling in services/transcription/worker.py (the
runtime-config fallback `25 * 1024 * 1024`). -/
def OPENAI_MAX_BYTES : Nat := 25 * 1024 * 1024

/-- Environment of one `transcription.transcribe` delivery: whether the
object exists, the `ContentLength` the store reports (`none` models a
missing header, read as 0), and the speech-to-text outcome. -/
structure TranscribeEnv where
  objectFound : Bool
  contentLength : Option Nat
  whisperResult : Option String
  deriving Repr

/-- Embedding of `fetch_media`: reject a missing object, an empty object
(`size_bytes <= 0`) and an oversized object before returning the bytes. -/
def fetch_media (env : TranscribeEnv) : Except TaskError Unit :=
  if env.objectFound = false then Except.error TaskError.downloadFailure
  else
    let size_bytes := env.contentLength.getD 0
    if size_bytes = 0 then Except.error TaskError.emptyObject
    else if size_bytes > OPENAI_MAX_BYTES then Except.error TaskError.payloadTooLarge
    else Except.ok ()

/-- Embedding of the task `transcription.transcribe`: fetch then call the
speech-to-text service, with the whole body inside
`try: ... except Exception as exc: raise self.retry(exc=exc)`, so every
failure requests a retry. -/
def transcribe (env : TranscribeEnv) : TaskOutcome String :=
  match fetch_media env with
  | Except.error e => TaskOutcome.retryRequested e
  | Except.ok _ =>
    match env.whisperResult with
    | some t => TaskOutcome.success t
    | none => TaskOutcome.retryRequested TaskError.externalServiceFailure

end Transcription

namespace Nlp

open Media

/-- Default of `JOB_DRAFT_MIN_TRANSCRIPT_CHARS` in services/nlp/worker.py
(the runtime-config fallback of `("transcript", "jobDraftMinChars")`). -/
def JOB_DRAFT_MIN_TRANSCRIPT_CHARS : Nat := 30

/-- Shape of the `keywords` / `tags` value found in the parsed model
output: a list whose elements are already stringified, a comma-separated
string, or any other JSON shape. -/
inductive KeywordsInput
  | ofList (xs : List String)
  | ofStr (s : String)
  | other
  deriving DecidableEq, Repr

/-- Embedding of `_normalize_keywords` (identical in services/nlp/worker.py
and app/routes/nlp.py): trim every piece and drop the empty ones; a list is
taken element-wise, a string is split on commas, anything else gives `[]`. -/
def normalize_keywords : KeywordsInput → List String
  | KeywordsInput.ofList xs =>
    xs.filterMap (fun k => let t := Py.strip k; if t = "" then none else some t)
  | KeywordsInput.ofStr s =>
    (Py.splitOnChar ',' s).filterMap (fun k => let t := Py.strip k; if t = "" then none else some t)
  | KeywordsInput.other => []

/-- Python truthiness of a keywords value: an empty list and an empty
string are falsy; the opaque `other` shape is modelled as truthy. -/
def KeywordsInput.isFalsy : KeywordsInput → Bool
  | KeywordsInput.ofList xs => xs.isEmpty
  | KeywordsInput.ofStr s => s = ""
  | KeywordsInput.other => false

/-- Pythonic `a or b` over an optional keywords value (`dict.get` gives
`None` for an absent field, which is falsy). -/
def pyOrKw (a : Option KeywordsInput) (b : KeywordsInput) : KeywordsInput :=
  match a with
  | none => b
  | some v => if v.isFalsy then b else v

/-- Pythonic `a or b` over an optional string. -/
def pyOrOptStr (a : Option String) (b : String) : String :=
  match a with
  | none => b
  | some s => if s = "" then b else s

/-- Relevant fields of the JSON object parsed from the model reply in
`generate_job_draft`. -/
structure DraftParsed where
  title : Option String
  description : Option String
  job_description : Option String
  keywords : Option KeywordsInput
  tags : Option KeywordsInput
  deriving Repr

/-- Structured job draft returned by `generate_job_draft`. -/
structure Draft where
  title : String
  description : String
  keywords : List String
  deriving DecidableEq, Repr

/-- Environment of one `nlp.process_document` delivery: the transcript, the
configuration checks (`OPENAI_API_KEY` presence, prompt-config validity),
the model invocation outcome, the reply content and its JSON parse. -/
structure NlpEnv where
  transcript : String
  apiKeyOk : Bool
  promptOk : Bool
  invokeOk : Bool
  modelContent : Option String
  parsed : Option DraftParsed
  deriving Repr

/-- Trace of one run of `generate_job_draft`: the result plus whether the
model client was constructed and whether the model was invoked. -/
structure JobDraftRun where
  result : Except TaskError Draft
  clientBuilt : Bool
  modelInvoked : Bool

/-- Embedding of `generate_job_draft` in services/nlp/worker.py: length
gate first, then `_build_chat_model` (API key, then prompt settings), then
the model call, the JSON parse, field extraction and the final
completeness check. -/
def generate_job_draft (env : NlpEnv) : JobDraftRun :=
  let transcript_clean := Py.strip env.transcript
  if transcript_clean.length < JOB_DRAFT_MIN_TRANSCRIPT_CHARS then
    ⟨Except.error TaskError.transcriptTooShort, false, false⟩
  else if env.apiKeyOk = false then
    ⟨Except.error TaskError.configurationError, false, false⟩
  else if env.promptOk = false then
    ⟨Except.error TaskError.configurationError, false, false⟩
  else if env.invokeOk = false then
    ⟨Except.error TaskError.externalServiceFailure, true, true⟩
  else
    let content := env.modelContent.getD ""
    if content = "" then ⟨Except.error TaskError.emptyModelResponse, true, true⟩
    else
      match env.parsed with
      | none => ⟨Except.error TaskError.malformedModelOutput, true, true⟩
      | some p =>
        let title := Py.strip (pyOrOptStr p.title "")
        let description := Py.strip (pyOrOptStr p.description (pyOrOptStr p.job_description ""))
        let keywords := normalize_keywords (pyOrKw p.keywords (pyOrKw p.tags (KeywordsInput.ofList [])))
        if title = "" ∨ description = "" then
          ⟨Except.error TaskError.incompleteDraft, true, true⟩
        else
          ⟨Except.ok ⟨title, description, keywords⟩, true, true⟩

/-- Embedding of the task `nlp.process_document`: it has no retry handler
and no `self.retry` call, so any error propagating out of
`generate_job_draft` fails the delivery with no retry. -/
def process_document (env : NlpEnv) : TaskOutcome Draft :=
  match (generate_job_draft env).result with
  | Except.ok d => TaskOutcome.success d
  | Except.error e => TaskOutcome.failedNoRetry e

end Nlp

namespace Routes

open Media Nlp

/-- Relevant fields of the JSON object parsed from the model reply in
`_draft_profile_from_transcript`. -/
structure ProfileParsed where
  headline : Option String
  summary : Option String
  profile : Option String
  location : Option String
  deriving Repr

/-- Structured profile draft returned by `_draft_profile_from_transcript`. -/
structure ProfileDraft where
  headline : String
  summary : String
  location : Option String
  deriving DecidableEq, Repr

/-- Environment of one profile-draft request: the model invocation outcome,
the reply content and its JSON parse. -/
structure ProfileEnv where
  invokeOk : Bool
  modelContent : Option String
  parsed : Option ProfileParsed
  deriving Repr

/-- Word count of Python `len(s.split())`: split on whitespace, empty
pieces dropped. -/
def countWords (s : String) : Nat :=
  (Py.splitWs s).length

/-- Headline extracted from the parsed reply:
`(parsed.get("headline") or "").strip()`. -/
def profileHeadline (p : ProfileParsed) : String :=
  Py.strip (pyOrOptStr p.headline "")

/-- Summary extracted from the parsed reply:
`(parsed.get("summary") or parsed.get("profile") or "").strip()`. -/
def profileSummary0 (p : ProfileParsed) : String :=
  Py.strip (pyOrOptStr p.summary (pyOrOptStr p.profile ""))

/-- Location extracted from the parsed reply:
`(parsed.get("location") or "").strip() or None`. -/
def profileLocation (p : ProfileParsed) : Option String :=
  let location0 := Py.strip (pyOrOptStr p.location "")
  if location0 = "" then none else some location0

/-- Summary after the equal-headline fallback: replaced by the stripped
200-character transcript snippet when it equals the headline
case-insensitively and both are non-empty. -/
def profileSummary1 (transcript : String) (p : ProfileParsed) : String :=
  if profileSummary0 p ≠ "" ∧ profileHeadline p ≠ "" ∧
      Py.lower (Py.strip (profileSummary0 p)) = Py.lower (Py.strip (profileHeadline p)) then
    Py.strip (Py.take 200 transcript)
  else profileSummary0 p

/-- Summary after the short-summary fallback: extended with the
400-character transcript snippet when under ten words. -/
def profileSummary2 (transcript : String) (p : ProfileParsed) : String :=
  if countWords (profileSummary1 transcript p) < 10 then
    Py.strip (profileSummary1 transcript p ++ " " ++ Py.take 400 transcript)
  else profileSummary1 transcript p

/-- Embedding of `_draft_profile_from_transcript` in app/routes/nlp.py:
extract headline/summary/location from the parsed reply, replace the
summary with `transcript[:200]` when it equals the headline
case-insensitively, extend it with `transcript[:400]` when it has fewer
than ten words, and reject drafts whose headline or summary ends empty. -/
def draft_profile_from_transcript (transcript : String) (env : ProfileEnv) :
    Except TaskError ProfileDraft :=
  if env.invokeOk = false then Except.error TaskError.externalServiceFailure
  else
    let content := env.modelContent.getD ""
    if content = "" then Except.error TaskError.emptyModelResponse
    else
      match env.parsed with
      | none => Except.error TaskError.malformedModelOutput
      | some p =>
        if profileHeadline p = "" ∨ profileSummary2 transcript p = "" then
          Except.error TaskError.incompleteDraft
        else Except.ok ⟨profileHeadline p, profileSummary2 transcript p, profileLocation p⟩

/-- Embedding of the `/nlp/profile-draft` endpoint: strip the transcript,
reject fewer than 20 characters, then delegate to
`_draft_profile_from_transcript`. -/
def generate_profile_draft (transcript : String) (env : ProfileEnv) :
    Except TaskError ProfileDraft :=
  let t := Py.strip transcript
  if t.length < 20 then Except.error TaskError.transcriptTooShort
  else draft_profile_from_transcript t env

end Routes

namespace Media

open Storage

/-- Indices in `0..n-1` whose chunk transcript is absent from the store. -/
def missingOf (store : Store) (session_id : String) (n : Nat) : List Nat :=
  (List.range n).filter
    (fun i => (store (build_audio_transcript_object_key session_id i)).isNone)

/-- Final text the spec prescribes: the stripped texts of the present chunk
transcripts in ascending index order, empty ones dropped, joined with
newlines. -/
def assembledText (store : Store) (session_id : String) (n : Nat) : String :=
  String.intercalate "\n"
    ((((List.range n).filterMap
        (fun i => store (build_audio_transcript_object_key session_id i))).map Py.strip).filter
      (fun t => t ≠ ""))

end Media

namespace Fixtures

open Storage Media Transcription Nlp Routes

/-- Store holding only a final transcript for session `sess`. -/
def storeFinalOnly : Store := fun k =>
  if k = build_audio_final_transcript_key "sess" then some "old final" else none

/-- Store holding chunk transcripts 0, 1, 2 for session `sess`. -/
def storeThreeChunks : Store := fun k =>
  if k = build_audio_transcript_object_key "sess" 0 then some " hello "
  else if k = build_audio_transcript_object_key "sess" 1 then some ""
  else if k = build_audio_transcript_object_key "sess" 2 then some "world"
  else none

/-- Delivery of a 40 MiB input whose transcoded output is still 30 MiB. -/
def oversizedEnv : UploadEnv := ⟨true, 40 * 1024 * 1024, true, 30 * 1024 * 1024, some "text"⟩

/-- Delivery whose model reply fails to parse as JSON. -/
def parseFailEnv : NlpEnv :=
  ⟨"this transcript is long enough to pass the length gate", true, true, true,
    some "this is not json", none⟩

/-- Ten-word transcript used to refute the no-duplicate-summary claim. -/
def dupTranscript : String := "aa bb cc dd ee ff gg hh ii jj"

/-- Profile request whose generated summary equals the headline
case-insensitively while the transcript snippet equals the headline. -/
def dupProfileEnv : ProfileEnv :=
  ⟨true, some "reply",
    some ⟨some "aa bb cc dd ee ff gg hh ii jj", some "AA BB CC DD EE FF GG HH II JJ", none, none⟩⟩

/-- Delivery of a source object whose reported content length is zero. -/
def emptyObjectEnv : TranscribeEnv := ⟨true, some 0, some "text"⟩

end Fixtures

theorem filterMap_strip_eq (f : String → String) (xs : List String) :
    xs.filterMap (fun k => let t := f k; if t = "" then none else some t)
      = (xs.map f).filter (fun t => t ≠ "") := by
  induction xs with
  | nil => rfl
  | cons x xs ih =>
    simp only [List.filterMap_cons, List.map_cons, List.filter_cons]
    by_cases h : f x = "" <;> simp [h, ih]

/-- C6: keyword normalization maps a comma-separated string to its
comma-split pieces trimmed with empty pieces dropped, a list to its
elements trimmed with empty elements dropped, and any other shape to the
empty list; in particular `"a, b ,c"` gives `["a","b","c"]` and
`["a","","  b  "]` gives `["a","b"]`. -/
theorem normalize_keywords_spec :
    (∀ s, Nlp.normalize_keywords (Nlp.KeywordsInput.ofStr s)
        = ((Py.splitOnChar ',' s).map Py.strip).filter (fun t => t ≠ ""))
  ∧ (∀ xs, Nlp.normalize_keywords (Nlp.KeywordsInput.ofList xs)
        = (xs.map Py.strip).filter (fun t => t ≠ ""))
  ∧ Nlp.normalize_keywords (Nlp.KeywordsInput.ofStr "a, b ,c") = ["a", "b", "c"]
  ∧ Nlp.normalize_keywords (Nlp.KeywordsInput.ofList ["a", "", "  b  "]) = ["a", "b"]
  ∧ Nlp.normalize_keywords Nlp.KeywordsInput.other = [] := by
  refine ⟨?_, ?_, ?_, ?_, ?_⟩
  · intro s
    simpa [Nlp.normalize_keywords] using filterMap_strip_eq Py.strip (Py.splitOnChar ',' s)
  · intro xs
    simpa [Nlp.normalize_keywords] using filterMap_strip_eq Py.strip xs
  · decide
  · decide
  · rfl

theorem sanitize_token_eq_empty (s : String)
    (h : ∀ c ∈ s.data, Storage.isAllowedTokenChar c = false) :
    Storage.sanitize_token s = "" := by
  unfold Storage.sanitize_token
  have : s.data.filter Storage.isAllowedTokenChar = [] :=
    List.filter_eq_nil_iff.mpr (fun c hc => by simp [h c hc])
  rw [this]

/-- C10: the session segment of every audio object key consists only of
allowed characters; when sanitization deletes every character the literal
segment `session` is substituted, so any two session ids made only of
disallowed characters produce identical chunk, chunk-transcript and
final-transcript keys. -/
theorem key_sanitization_and_collision :
    (∀ sid, ∀ c ∈ (Storage.safeSession sid).data, Storage.isAllowedTokenChar c = true)
  ∧ (∀ sid, Storage.sanitize_token sid = "" → Storage.safeSession sid = "session")
  ∧ (∀ sid1 sid2 (i : Nat) (fn : Option String),
      (∀ c ∈ sid1.data, Storage.isAllowedTokenChar c = false) →
      (∀ c ∈ sid2.data, Storage.isAllowedTokenChar c = false) →
      Storage.build_audio_chunk_object_key sid1 i fn = Storage.build_audio_chunk_object_key sid2 i fn
      ∧ Storage.build_audio_transcript_object_key sid1 i = Storage.build_audio_transcript_object_key sid2 i
      ∧ Storage.build_audio_final_transcript_key sid1 = Storage.build_audio_final_transcript_key sid2) := by
  refine ⟨fun sid c hc => ?_, fun sid h => ?_, fun sid1 sid2 i fn h1 h2 => ?_⟩
  · by_cases h : Storage.sanitize_token sid = ""
    · rw [Storage.safeSession, Storage.pyOrStr, if_pos h] at hc
      have hall : ∀ c ∈ ("session" : String).data, Storage.isAllowedTokenChar c = true := by decide
      exact hall c hc
    · rw [Storage.safeSession, Storage.pyOrStr, if_neg h] at hc
      exact List.of_mem_filter hc
  · rw [Storage.safeSession, Storage.pyOrStr, if_pos h]
  · have e1 : Storage.sanitize_token sid1 = "" := sanitize_token_eq_empty sid1 h1
    have e2 : Storage.sanitize_token sid2 = "" := sanitize_token_eq_empty sid2 h2
    refine ⟨?_, ?_, ?_⟩ <;>
      simp [Storage.build_audio_chunk_object_key, Storage.build_audio_transcript_object_key,
        Storage.build_audio_final_transcript_key, Storage.safeSession, Storage.pyOrStr, e1, e2]

/-- Witness for the collision part of the key-sanitization theorem at the
all-disallowed session ids `!!!` and `@@`. -/
theorem key_sanitization_and_collision_witness :
    Storage.build_audio_final_transcript_key "!!!" = Storage.build_audio_final_transcript_key "@@" :=
  (key_sanitization_and_collision.2.2 "!!!" "@@" 0 none (by decide) (by decide)).2.2

theorem pad6_length (i : Nat) : 6 ≤ (Storage.pad6 i).length := by
  unfold Storage.pad6
  rw [String.length_append]
  have h1 : (String.mk (List.replicate (6 - (toString i).length) '0')).length
      = 6 - (toString i).length := List.length_replicate _ _
  omega

theorem chunk_key_ne_final (sid : String) (i : Nat) :
    Storage.build_audio_transcript_object_key sid i ≠ Storage.build_audio_final_transcript_key sid := by
  intro hEq
  have h := congrArg String.length hEq
  rw [Storage.build_audio_transcript_object_key, Storage.build_audio_final_transcript_key] at h
  simp only [String.length_append] at h
  have h6 := pad6_length i
  have l1 : ("audio-sessions/" : String).length = 15 := rfl
  have l2 : ("/transcripts/chunk-" : String).length = 19 := rfl
  have l3 : (".txt" : String).length = 4 := rfl
  have l4 : ("/transcripts/final.txt" : String).length = 22 := rfl
  rw [l1, l2, l3, l4] at h
  omega

theorem map_fst_filter_snd (g : Nat → Option String) (l : List Nat) :
    ((l.map (fun i => (i, g i))).filter (fun p => p.2.isNone)).map Prod.fst
      = l.filter (fun i => (g i).isNone) := by
  induction l with
  | nil => rfl
  | cons x xs ih => by_cases h : (g x).isNone <;> simp [h, ih]

theorem filterMap_snd_map (g : Nat → Option String) (l : List Nat) :
    (l.map (fun i => (i, g i))).filterMap (fun p => p.2.map Py.strip)
      = (l.filterMap g).map Py.strip := by
  induction l with
  | nil => rfl
  | cons x xs ih => cases hx : g x <;> simp [hx, ih]

theorem finalize_shape (store : Storage.Store) (sid : String) (n : Nat) :
    Media.finalize_audio_session store sid n =
      if Media.missingOf store sid n = [] then
        Media.FinalizeOutcome.ok
          (Storage.put_text_object store (Storage.build_audio_final_transcript_key sid)
            (Media.assembledText store sid n))
          (Media.assembledText store sid n)
      else Media.FinalizeOutcome.retry (Media.missingOf store sid n) := by
  simp only [Media.finalize_audio_session]
  rw [map_fst_filter_snd, filterMap_snd_map]
  rfl

theorem missingOf_eq_nil_iff (store : Storage.Store) (sid : String) (n : Nat) :
    Media.missingOf store sid n = [] ↔
      ∀ i < n, (store (Storage.build_audio_transcript_object_key sid i)).isSome = true := by
  unfold Media.missingOf
  rw [List.filter_eq_nil_iff]
  have hopt : ∀ o : Option String, (¬ o.isNone = true) ↔ o.isSome = true := by
    intro o
    cases o <;> simp
  constructor
  · intro h i hi
    exact (hopt _).mp (h i (List.mem_range.mpr hi))
  · intro h i hi
    exact (hopt _).mpr (h i (List.mem_range.mp hi))

/-- C1: for a session with `total_chunks = n`, finalize succeeds exactly
when the chunk transcripts of all indices `0..n-1` exist in the store; with
any index missing it requests a retry carrying the missing indices, and
with all present it writes at the final-transcript key exactly the
non-empty stripped chunk texts joined by newlines in ascending index
order. -/
theorem finalize_success_iff_chunks (store : Storage.Store) (sid : String) (n : Nat) :
    ((Media.finalize_audio_session store sid n).isOk = true ↔
      ∀ i < n, (store (Storage.build_audio_transcript_object_key sid i)).isSome = true)
  ∧ (¬ (∀ i < n, (store (Storage.build_audio_transcript_object_key sid i)).isSome = true) →
      Media.finalize_audio_session store sid n
        = Media.FinalizeOutcome.retry (Media.missingOf store sid n))
  ∧ ((∀ i < n, (store (Storage.build_audio_transcript_object_key sid i)).isSome = true) →
      Media.finalize_audio_session store sid n =
        Media.FinalizeOutcome.ok
          (Storage.put_text_object store (Storage.build_audio_final_transcript_key sid)
            (Media.assembledText store sid n))
          (Media.assembledText store sid n)) := by
  refine ⟨?_, ?_, ?_⟩
  · rw [finalize_shape]
    by_cases h : Media.missingOf store sid n = []
    · rw [if_pos h]
      exact iff_of_true rfl ((missingOf_eq_nil_iff store sid n).mp h)
    · rw [if_neg h]
      exact iff_of_false (by simp [Media.FinalizeOutcome.isOk])
        (fun hall => h ((missingOf_eq_nil_iff store sid n).mpr hall))
  · intro h
    rw [finalize_shape, if_neg]
    exact fun he => h ((missingOf_eq_nil_iff store sid n).mp he)
  · intro h
    rw [finalize_shape, if_pos ((missingOf_eq_nil_iff store sid n).mpr h)]

/-- Witness for the finalize theorem at a store holding chunk transcripts
0, 1, 2 of session `sess`. -/
theorem finalize_success_iff_chunks_witness :
    Media.finalize_audio_session Fixtures.storeThreeChunks "sess" 3 =
      Media.FinalizeOutcome.ok
        (Storage.put_text_object Fixtures.storeThreeChunks
          (Storage.build_audio_final_transcript_key "sess")
          (Media.assembledText Fixtures.storeThreeChunks "sess" 3))
        (Media.assembledText Fixtures.storeThreeChunks "sess" 3) :=
  (finalize_success_iff_chunks Fixtures.storeThreeChunks "sess" 3).2.2 (by decide)

/-- C2 is refuted: the store holds `FinalTranscript` = `old final` for
session `sess`, yet finalize does not return that text — it reads for
chunk 0, finds it missing, and requests a retry. -/
theorem finalize_shortcircuit_counterexample :
    Storage.get_text_object Fixtures.storeFinalOnly
        (Storage.build_audio_final_transcript_key "sess") = some "old final"
  ∧ (Media.finalize_audio_session Fixtures.storeFinalOnly "sess" 1).decision
      = Except.error [0] :=
  ⟨rfl, rfl⟩

/-- C2 amended: finalize has no idempotent short-circuit — its decision
never consults the FinalTranscript object, so writing any text at the
final-transcript key leaves the decision unchanged; re-entry after a
successful finalize converges to the same final text only by re-reading
every chunk transcript and overwriting deterministically. -/
theorem finalize_ignores_existing_final (store : Storage.Store) (sid : String)
    (n : Nat) (t : String) :
    ((Media.finalize_audio_session
        (Storage.put_text_object store (Storage.build_audio_final_transcript_key sid) t)
        sid n).decision
      = (Media.finalize_audio_session store sid n).decision)
  ∧ (∀ st ft, Media.finalize_audio_session store sid n = Media.FinalizeOutcome.ok st ft →
      (Media.finalize_audio_session st sid n).decision = Except.ok ft) := by
  have hpt : ∀ (base : Storage.Store) (u : String) (i : Nat),
      Storage.put_text_object base (Storage.build_audio_final_transcript_key sid) u
        (Storage.build_audio_transcript_object_key sid i)
      = base (Storage.build_audio_transcript_object_key sid i) := by
    intro base u i
    exact if_neg (chunk_key_ne_final sid i)
  have hm : ∀ (base : Storage.Store) (u : String),
      Media.missingOf
          (Storage.put_text_object base (Storage.build_audio_final_transcript_key sid) u) sid n
        = Media.missingOf base sid n := by
    intro base u
    unfold Media.missingOf
    exact List.filter_congr (fun i _ => by rw [hpt base u i])
  have ha : ∀ (base : Storage.Store) (u : String),
      Media.assembledText
          (Storage.put_text_object base (Storage.build_audio_final_transcript_key sid) u) sid n
        = Media.assembledText base sid n := by
    intro base u
    unfold Media.assembledText
    congr 1
    congr 1
    congr 1
    exact List.filterMap_congr (fun i _ => by rw [hpt base u i])
  constructor
  · rw [finalize_shape, finalize_shape, hm]
    by_cases h : Media.missingOf store sid n = [] <;>
      simp [h, Media.FinalizeOutcome.decision, ha]
  · intro st ft hok
    rw [finalize_shape] at hok
    by_cases h : Media.missingOf store sid n = []
    · rw [if_pos h] at hok
      have hst := (Media.FinalizeOutcome.ok.injEq _ _ _ _).mp hok
      rw [finalize_shape, ← hst.1, hm, ha, if_pos h]
      simp [Media.FinalizeOutcome.decision, hst.2]
    · rw [if_neg h] at hok
      exact absurd hok (by simp)

/-- Witness for the amended finalize theorem: with chunks 0..2 of session
`sess` present, re-running finalize on the store produced by a successful
finalize returns the same final text. -/
theorem finalize_ignores_existing_final_witness :
    (Media.finalize_audio_session
        (Storage.put_text_object Fixtures.storeThreeChunks
          (Storage.build_audio_final_transcript_key "sess") "hello\nworld")
        "sess" 3).decision = Except.ok "hello\nworld" :=
  (finalize_ignores_existing_final Fixtures.storeThreeChunks "sess" 3 "hello\nworld").2
    (Storage.put_text_object Fixtures.storeThreeChunks
      (Storage.build_audio_final_transcript_key "sess") "hello\nworld")
    "hello\nworld" (by rfl)

/-- C3 is refuted: a 40 MiB input whose transcoded output is still 30 MiB
makes `process_upload` raise the oversized-payload error inside the blanket
exception handler, which requests a retry — with `max_retries = 3` the
delivery is retried three times, not zero. -/
theorem payload_terminal_counterexample :
    Media.process_upload Fixtures.oversizedEnv
      = Media.TaskOutcome.retryRequested Media.TaskError.payloadTooLarge
  ∧ Media.retriesGranted (Media.process_upload Fixtures.oversizedEnv) 3 = 3 :=
  ⟨rfl, rfl⟩

/-- C3 amended: an input still exceeding the ceiling after transcoding
fails with the oversized-payload error, but the blanket handler of
`process_upload` and `process_audio_chunk` turns it into a retry request
exactly like transient failures, so it consumes the full retry budget
instead of failing terminally. -/
theorem payload_too_large_requests_retry (env : Media.UploadEnv)
    (h1 : env.downloadOk = true) (h2 : env.inputSize > Media.OPENAI_MAX_BYTES)
    (h3 : env.transcodeOk = true) (h4 : env.transcodedSize > Media.OPENAI_MAX_BYTES) :
    Media.process_upload env = Media.TaskOutcome.retryRequested Media.TaskError.payloadTooLarge
  ∧ (∀ store sid i, Media.process_audio_chunk env store sid i
      = Media.TaskOutcome.retryRequested Media.TaskError.payloadTooLarge)
  ∧ (∀ m, Media.retriesGranted (Media.process_upload env) m = m) := by
  have hb : (Media.uploadBody env).result = Except.error Media.TaskError.payloadTooLarge := by
    simp [Media.uploadBody, h1, h2, h3, h4]
  refine ⟨?_, fun store sid i => ?_, fun m => ?_⟩
  · simp [Media.process_upload, hb]
  · simp [Media.process_audio_chunk, hb]
  · simp [Media.process_upload, hb, Media.retriesGranted]

/-- Witness for the amended oversized-payload theorem at the 40 MiB
fixture. -/
theorem payload_too_large_requests_retry_witness :
    Media.process_audio_chunk Fixtures.oversizedEnv Fixtures.storeFinalOnly "sess" 0
      = Media.TaskOutcome.retryRequested Media.TaskError.payloadTooLarge :=
  (payload_too_large_requests_retry Fixtures.oversizedEnv rfl (by decide) rfl (by decide)).2.1
    Fixtures.storeFinalOnly "sess" 0

/-- C9 is refuted: a zero-byte source object makes `fetch_media` raise the
empty-object error, which the blanket handler of `transcription.transcribe`
turns into a retry request — with `max_retries = 3` the delivery is retried
three times rather than failing immediately. -/
theorem empty_object_terminal_counterexample :
    Transcription.transcribe Fixtures.emptyObjectEnv
      = Media.TaskOutcome.retryRequested Media.TaskError.emptyObject
  ∧ Media.retriesGranted (Transcription.transcribe Fixtures.emptyObjectEnv) 3 = 3 :=
  ⟨rfl, rfl⟩

/-- C9 amended: an empty (zero-byte) source object is rejected by
`fetch_media`, but the task's blanket exception handler requests a retry
for it exactly like a transient failure, consuming the full retry budget
instead of failing immediately. -/
theorem empty_object_requests_retry (env : Transcription.TranscribeEnv)
    (h1 : env.objectFound = true) (h2 : env.contentLength.getD 0 = 0) :
    Transcription.transcribe env
      = Media.TaskOutcome.retryRequested Media.TaskError.emptyObject
  ∧ (∀ m, Media.retriesGranted (Transcription.transcribe env) m = m) := by
  have hf : Transcription.fetch_media env = Except.error Media.TaskError.emptyObject := by
    simp [Transcription.fetch_media, h1, h2]
  refine ⟨?_, fun m => ?_⟩
  · simp [Transcription.transcribe, hf]
  · simp [Transcription.transcribe, hf, Media.retriesGranted]

/-- Witness for the amended empty-object theorem at a missing
content-length header. -/
theorem empty_object_requests_retry_witness :
    Transcription.transcribe ⟨true, none, some "text"⟩
      = Media.TaskOutcome.retryRequested Media.TaskError.emptyObject :=
  (empty_object_requests_retry ⟨true, none, some "text"⟩ rfl rfl).1

/-- C4 is refuted: a model reply that fails to parse as JSON makes
`nlp.process_document` fail with the malformed-output error and zero
retries — the task has no retry handler at all, so it is not retried even
once. -/
theorem malformed_retry_once_counterexample :
    Nlp.process_document Fixtures.parseFailEnv
      = Media.TaskOutcome.failedNoRetry Media.TaskError.malformedModelOutput
  ∧ Media.retriesGranted (Nlp.process_document Fixtures.parseFailEnv) 3 = 0 :=
  ⟨rfl, rfl⟩

/-- C4 amended: a draft-generation request whose model reply fails to parse
as JSON fails with the malformed-output error and is retried zero times —
`nlp.process_document` declares no retry policy and never calls
`self.retry`, so the parse failure propagates and the delivery fails
immediately. -/
theorem malformed_output_not_retried (env : Nlp.NlpEnv)
    (h1 : ¬ (Py.strip env.transcript).length < Nlp.JOB_DRAFT_MIN_TRANSCRIPT_CHARS)
    (h2 : env.apiKeyOk = true) (h3 : env.promptOk = true) (h4 : env.invokeOk = true)
    (h5 : env.modelContent.getD "" ≠ "") (h6 : env.parsed = none) :
    (Nlp.generate_job_draft env).result = Except.error Media.TaskError.malformedModelOutput
  ∧ Nlp.process_document env = Media.TaskOutcome.failedNoRetry Media.TaskError.malformedModelOutput
  ∧ (∀ m, Media.retriesGranted (Nlp.process_document env) m = 0) := by
  have hb : (Nlp.generate_job_draft env).result
      = Except.error Media.TaskError.malformedModelOutput := by
    simp [Nlp.generate_job_draft, h1, h2, h3, h4, h5, h6]
  refine ⟨hb, ?_, fun m => ?_⟩
  · simp [Nlp.process_document, hb]
  · simp [Nlp.process_document, hb, Media.retriesGranted]

/-- Witness for the amended malformed-output theorem at the parse-failure
fixture. -/
theorem malformed_output_not_retried_witness :
    Nlp.process_document Fixtures.parseFailEnv
      = Media.TaskOutcome.failedNoRetry Media.TaskError.malformedModelOutput :=
  (malformed_output_not_retried Fixtures.parseFailEnv (by decide) rfl rfl rfl
    (by decide) rfl).2.1

/-- C5: with a successful download, the transcode step is invoked exactly
when the input exceeds `OPENAI_MAX_BYTES` (25 MiB); an input at or below
the ceiling is sent to speech-to-text unchanged with no transcode call,
and an oversized input is transcoded and the transcoded output re-checked
against the same ceiling before any speech-to-text call. -/
theorem transcode_gating (env : Media.UploadEnv) (h : env.downloadOk = true) :
    ((Media.uploadBody env).transcodeCalled = true ↔ env.inputSize > Media.OPENAI_MAX_BYTES)
  ∧ (env.inputSize ≤ Media.OPENAI_MAX_BYTES →
      (Media.uploadBody env).transcodeCalled = false
      ∧ (Media.uploadBody env).sttCalled = true
      ∧ (Media.uploadBody env).sttSize = some env.inputSize)
  ∧ (env.inputSize > Media.OPENAI_MAX_BYTES → env.transcodeOk = true →
      env.transcodedSize > Media.OPENAI_MAX_BYTES →
      (Media.uploadBody env).result = Except.error Media.TaskError.payloadTooLarge
      ∧ (Media.uploadBody env).sttCalled = false)
  ∧ (env.inputSize > Media.OPENAI_MAX_BYTES → env.transcodeOk = true →
      env.transcodedSize ≤ Media.OPENAI_MAX_BYTES →
      (Media.uploadBody env).sttCalled = true
      ∧ (Media.uploadBody env).sttSize = some env.transcodedSize) := by
  obtain ⟨dOk, iSz, tOk, tSz, wr⟩ := env
  simp only at h
  subst h
  by_cases h1 : iSz > Media.OPENAI_MAX_BYTES
  · cases tOk
    · cases wr <;> simp [Media.uploadBody, h1]
    · by_cases h2 : tSz > Media.OPENAI_MAX_BYTES
      · cases wr <;> simp [Media.uploadBody, h1, h2]
      · cases wr <;> simp [Media.uploadBody, h1, h2]
  · cases wr <;> simp [Media.uploadBody, h1]

/-- Witness for the transcode-gating theorem at a 10 MiB input under the
25 MiB ceiling. -/
theorem transcode_gating_witness :
    (Media.uploadBody ⟨true, 10 * 1024 * 1024, true, 0, some "text"⟩).transcodeCalled = false
      ∧ (Media.uploadBody ⟨true, 10 * 1024 * 1024, true, 0, some "text"⟩).sttCalled = true
      ∧ (Media.uploadBody ⟨true, 10 * 1024 * 1024, true, 0, some "text"⟩).sttSize
          = some (10 * 1024 * 1024) :=
  (transcode_gating ⟨true, 10 * 1024 * 1024, true, 0, some "text"⟩ rfl).2.1 (by decide)

/-- C7: a transcript whose stripped length is below the 30-character job
minimum is rejected as too short before the model client is constructed or
invoked, and the rejection propagates out of `nlp.process_document` with no
retry. -/
theorem short_transcript_rejected (env : Nlp.NlpEnv)
    (h : (Py.strip env.transcript).length < Nlp.JOB_DRAFT_MIN_TRANSCRIPT_CHARS) :
    (Nlp.generate_job_draft env).result = Except.error Media.TaskError.transcriptTooShort
  ∧ (Nlp.generate_job_draft env).clientBuilt = false
  ∧ (Nlp.generate_job_draft env).modelInvoked = false
  ∧ Nlp.process_document env = Media.TaskOutcome.failedNoRetry Media.TaskError.transcriptTooShort
  ∧ (∀ m, Media.retriesGranted (Nlp.process_document env) m = 0) := by
  have hb : Nlp.generate_job_draft env
      = ⟨Except.error Media.TaskError.transcriptTooShort, false, false⟩ := by
    simp [Nlp.generate_job_draft, h]
  refine ⟨?_, ?_, ?_, ?_, fun m => ?_⟩ <;>
    simp [hb, Nlp.process_document, Media.retriesGranted]

/-- Witness for the short-transcript theorem at a 9-character transcript. -/
theorem short_transcript_rejected_witness :
    Nlp.process_document ⟨"too short", true, true, true, some "reply", none⟩
      = Media.TaskOutcome.failedNoRetry Media.TaskError.transcriptTooShort :=
  (short_transcript_rejected ⟨"too short", true, true, true, some "reply", none⟩
    (by decide)).2.2.2.1

/-- C8 is refuted: for a transcript equal to the ten-word headline, a model
reply whose summary equals the headline case-insensitively triggers the
fallback, but the transcript snippet substituted for the summary is itself
the headline, so the endpoint succeeds with summary equal to headline. -/
theorem profile_duplicate_summary_counterexample :
    Routes.draft_profile_from_transcript Fixtures.dupTranscript Fixtures.dupProfileEnv
      = Except.ok
          ⟨"aa bb cc dd ee ff gg hh ii jj", "aa bb cc dd ee ff gg hh ii jj", none⟩
  ∧ Routes.generate_profile_draft Fixtures.dupTranscript Fixtures.dupProfileEnv
      = Except.ok
          ⟨"aa bb cc dd ee ff gg hh ii jj", "aa bb cc dd ee ff gg hh ii jj", none⟩ :=
  ⟨rfl, rfl⟩

/-- C8 amended: when the generated summary equals the headline
case-insensitively (both non-empty), the returned summary is replaced by
the 200-character transcript snippet, possibly extended with the
400-character snippet when still under ten words; a successful profile
draft never has an empty headline or summary, but the returned summary can
still equal the headline when the transcript-derived text itself does —
equality is not re-checked after the fallback. -/
theorem profile_summary_fallback (t : String) (env : Routes.ProfileEnv)
    (p : Routes.ProfileParsed) (d : Routes.ProfileDraft)
    (hp : env.parsed = some p)
    (hok : Routes.draft_profile_from_transcript t env = Except.ok d) :
    (d.headline ≠ "" ∧ d.summary ≠ "")
  ∧ (Routes.profileSummary0 p ≠ "" → Routes.profileHeadline p ≠ "" →
     Py.lower (Py.strip (Routes.profileSummary0 p))
       = Py.lower (Py.strip (Routes.profileHeadline p)) →
     d.summary = Py.strip (Py.take 200 t)
     ∨ d.summary = Py.strip (Py.strip (Py.take 200 t) ++ " " ++ Py.take 400 t)) := by
  by_cases h1 : env.invokeOk = false
  · rw [Routes.draft_profile_from_transcript, if_pos h1] at hok
    exact absurd hok (by simp)
  by_cases h2 : env.modelContent.getD "" = ""
  · rw [Routes.draft_profile_from_transcript, if_neg h1] at hok
    simp only [h2, if_pos] at hok
    exact absurd hok (by simp)
  simp only [Routes.draft_profile_from_transcript, h1, h2, hp, if_neg, if_false] at hok
  by_cases h3 : Routes.profileHeadline p = "" ∨ Routes.profileSummary2 t p = ""
  · rw [if_pos h3] at hok
    exact absurd hok (by simp)
  · rw [if_neg h3] at hok
    injection hok with hd
    subst hd
    rw [not_or] at h3
    refine ⟨⟨h3.1, h3.2⟩, fun hs0 hh0 heq => ?_⟩
    have h5 : Routes.profileSummary1 t p = Py.strip (Py.take 200 t) := by
      rw [Routes.profileSummary1, if_pos (And.intro hs0 (And.intro hh0 heq))]
    show Routes.profileSummary2 t p = _ ∨ _
    rw [Routes.profileSummary2, h5]
    by_cases hw : Routes.countWords (Py.strip (Py.take 200 t)) < 10
    · right
      rw [if_pos hw]
    · left
      rw [if_neg hw]

/-- Witness for the amended profile-summary theorem at the duplicate
fixture. -/
theorem profile_summary_fallback_witness :
    (("aa bb cc dd ee ff gg hh ii jj" : String) ≠ ""
      ∧ ("aa bb cc dd ee ff gg hh ii jj" : String) ≠ "") :=
  (profile_summary_fallback Fixtures.dupTranscript Fixtures.dupProfileEnv
    ⟨some "aa bb cc dd ee ff gg hh ii jj", some "AA BB CC DD EE FF GG HH II JJ", none, none⟩
    ⟨"aa bb cc dd ee ff gg hh ii jj", "aa bb cc dd ee ff gg hh ii jj", none⟩
    rfl rfl).1
